import Mathlib

/-!
Verification of the nutrition-backend recognition / resolution pipeline.

The Python sources are embedded shallowly:
* pure dict-and-float computations become Lean functions over `ℚ` and
  association lists (Python floats are modelled by exact rationals; all
  values appearing in the claims are exactly representable at one decimal);
* calls to external collaborators (OpenFoodFacts HTTP, the Vertex vision
  model, `json.loads`, the `pyzbar` symbol decoder, the SQL session) are
  modelled as explicit function or data parameters, with a trace list
  recording which remote calls were dispatched;
* `dict` results whose key sets differ per branch become inductive types
  with one constructor per returned shape.
-/

namespace NutriBackend

/-!  Python string primitives, modelled on the character list (so that
they compute by structural recursion).  Case mapping is modelled for
ASCII letters, which covers every string these routes compare. -/

/-- Python `a in b` for strings: substring containment. -/
def pyIn (needle hay : String) : Bool :=
  hay.toList.tails.any (fun t => needle.toList.isPrefixOf t)

/-- Python `str.isdigit` restricted to ASCII digits (barcodes are ASCII). -/
def pyStrIsdigit (s : String) : Bool :=
  !s.isEmpty && s.toList.all Char.isDigit

/-- Python `str.lower` on an ASCII character. -/
def pyCharLower (c : Char) : Char :=
  if 65 ≤ c.toNat ∧ c.toNat ≤ 90 then Char.ofNat (c.toNat + 32) else c

/-- Python `str.lower` (ASCII). -/
def pyLower (s : String) : String := String.mk (s.toList.map pyCharLower)

/-- Python `str.strip` on a character list. -/
def trimList (l : List Char) : List Char :=
  ((l.dropWhile Char.isWhitespace).reverse.dropWhile Char.isWhitespace).reverse

/-- Python `str.strip`. -/
def pyTrim (s : String) : String := String.mk (trimList s.toList)

/-- Python `str.startswith`. -/
def pyStartsWith (s pre : String) : Bool := pre.toList.isPrefixOf s.toList

/-- Python `str.replace` on character lists, fuel-structured (the fuel
is the length of the text, enough for every non-overlapping pass). -/
def replFuel (needle repl : List Char) : Nat → List Char → List Char
  | 0, l => l
  | _ + 1, [] => []
  | fuel + 1, c :: rest =>
      if needle.isPrefixOf (c :: rest) then
        repl ++ replFuel needle repl fuel (List.drop (needle.length - 1) rest)
      else c :: replFuel needle repl fuel rest

/-- Python `str.replace` (all non-overlapping occurrences, left to
right; the needles used here are non-empty). -/
def pyReplace (s needle repl : String) : String :=
  String.mk (replFuel needle.toList repl.toList s.toList.length s.toList)

/-- Python slicing `s[:k]`. -/
def pyTake (s : String) (k : Nat) : String := String.mk (s.toList.take k)

/-- Python `len` on a string. -/
def pyLen (s : String) : Nat := s.toList.length

/-- Floor of a rational. -/
def ratFloor (q : ℚ) : ℤ := ⌊q⌋

/-- Python `round` to an integer: round-half-to-even (banker's rounding). -/
def pyRoundHalfEven (q : ℚ) : ℤ :=
  let f := ratFloor q
  let r := q - (f : ℚ)
  if r < 1/2 then f
  else if 1/2 < r then f + 1
  else if f % 2 = 0 then f else f + 1

/-- Python `round(x, 1)`: round to one decimal place. -/
def pyRound1 (q : ℚ) : ℚ := (pyRoundHalfEven (10 * q) : ℚ) / 10

namespace AIAnalyzer

/-!  `app/services/ai_analyzer.py`, class `AIFoodAnalyzer`. -/

/-- One row of the internal per-100g nutrition table. -/
structure FoodRow where
  calories_per_100g : ℚ
  protein_per_100g : ℚ
  carbs_per_100g : ℚ
  fat_per_100g : ℚ
  fiber_per_100g : ℚ
  category : String
  deriving DecidableEq

/-- `AIFoodAnalyzer.food_database`: the fixed per-100g table, in the
source's (insertion-ordered dict) iteration order. -/
def food_database : List (String × FoodRow) :=
  [ ("apple",          ⟨52,  3/10, 14, 2/10,  24/10, "fruit"⟩)
  , ("banana",         ⟨89,  11/10, 23, 3/10, 26/10, "fruit"⟩)
  , ("bread",          ⟨265, 9,  49, 32/10, 27/10, "grain"⟩)
  , ("chicken breast", ⟨165, 31, 0,  36/10, 0,     "protein"⟩)
  , ("rice",           ⟨130, 27/10, 28, 3/10, 4/10, "grain"⟩) ]

/-- The generic fallback row used by `get_nutrition_data` when no table
entry matches (the inline `mock values` dict). -/
def fallbackRow : FoodRow := ⟨200, 5, 30, 8, 3, "unknown"⟩

/-- The substring-containment match of `get_nutrition_data`'s loop:
`db_food in food_name_lower or food_name_lower in db_food`. -/
def matchPred (food_name_lower : String) (p : String × FoodRow) : Bool :=
  pyIn p.1 food_name_lower || pyIn food_name_lower p.1

/-- Output dict of `get_nutrition_data`. -/
structure NutritionData where
  calories : ℚ
  protein : ℚ
  carbs : ℚ
  fat : ℚ
  fiber : ℚ
  category : String
  deriving DecidableEq

/-- Linear scaling of a per-100g row to a weight, each total rounded to
one decimal, as in the tail of `get_nutrition_data`. -/
def scaleRow (row : FoodRow) (weight_grams : ℚ) : NutritionData :=
  let multiplier := weight_grams / 100
  { calories := pyRound1 (row.calories_per_100g * multiplier)
  , protein  := pyRound1 (row.protein_per_100g * multiplier)
  , carbs    := pyRound1 (row.carbs_per_100g * multiplier)
  , fat      := pyRound1 (row.fat_per_100g * multiplier)
  , fiber    := pyRound1 (row.fiber_per_100g * multiplier)
  , category := row.category }

/-- The table row `get_nutrition_data` resolves a name to: first match of
the iteration loop, else the generic fallback row. -/
def per100Of (food_name : String) : FoodRow :=
  match food_database.find? (matchPred (pyLower food_name)) with
  | some p => p.2
  | none => fallbackRow

/-- `AIFoodAnalyzer.get_nutrition_data`: lower-case the name, find the
first table row matching by substring containment in either direction
(else use the fallback row), then scale by `weight_grams / 100` and round
each total to one decimal.  The source performs no validation of
`weight_grams`. -/
def get_nutrition_data (food_name : String) (weight_grams : ℚ) : NutritionData :=
  let food_name_lower := pyLower food_name
  let nutrition_per_100g :=
    match food_database.find? (matchPred food_name_lower) with
    | some p => p.2
    | none => fallbackRow
  scaleRow nutrition_per_100g weight_grams

/-- The final path component: everything after the last slash. -/
def baseNameOf (l : List Char) : List Char :=
  ((l.reverse.takeWhile (fun c => c ≠ '/')).reverse)

/-- `Path(image_path).stem`: final path component without its last
suffix (a leading-dot name with no other dot keeps the dot). -/
def pathStem (p : String) : String :=
  let base := baseNameOf p.toList
  let rev := base.reverse
  String.mk (match rev.dropWhile (fun c => c ≠ '.') with
    | [] => base
    | _ :: rest => if rest = [] then base else rest.reverse)

/-- Output dict of `_analyze_with_fallback`. -/
structure FallbackAnalysis where
  food_name : String
  estimated_weight_grams : ℚ
  confidence_score : ℚ
  description : String
  ai_powered : Bool
  error : Option String
  deriving DecidableEq

/-- `AIFoodAnalyzer._analyze_with_fallback`: match the lowered filename
stem against the table keys by substring containment either way; when
nothing matches use the sentinel name `"unknown food"`; confidence is
0.7 on a match and 0.3 otherwise. -/
def analyze_with_fallback (image_path : String) (error : Option String) :
    FallbackAnalysis :=
  let image_name := pyLower (pathStem image_path)
  let matched :=
    food_database.find? (fun p => pyIn p.1 image_name || pyIn image_name p.1)
  let matched_food := match matched with
    | some p => p.1
    | none => "unknown food"
  { food_name := matched_food
  , estimated_weight_grams := 150
  , confidence_score := if matched_food ≠ "unknown food" then 7/10 else 3/10
  , description := "food in the image: " ++ matched_food
  , ai_powered := false
  , error := error }

/-- The fixed base-score table `category_scores` of
`calculate_health_score`. -/
def category_scores : List (String × ℚ) :=
  [("fruit", 17/2), ("vegetable", 9), ("protein", 15/2),
   ("grain", 13/2), ("dairy", 6), ("unknown", 5)]

/-- `AIFoodAnalyzer.calculate_health_score`: base score from the category
table (default 5.0), plus 0.5 if fiber > 3, plus 0.5 if protein > 10,
minus 1.0 if calories > 400, minus 0.5 if fat > 15; finally
`max(1.0, min(10.0, round(base_score, 1)))`. -/
def calculate_health_score (n : NutritionData) : ℚ :=
  let base0 := (category_scores.lookup n.category).getD 5
  let base1 := if 3 < n.fiber then base0 + 1/2 else base0
  let base2 := if 10 < n.protein then base1 + 1/2 else base1
  let base3 := if 400 < n.calories then base2 - 1 else base2
  let base4 := if 15 < n.fat then base3 - 1/2 else base3
  max 1 (min 10 (pyRound1 base4))

/-- The advisory-score formula exactly as the spec words it: category
base score plus the four additive adjustments, rounded to one decimal
and clamped into `[1, 10]`.  Stated independently of
`calculate_health_score` to compare the two. -/
def advisoryScoreSpec (n : NutritionData) : ℚ :=
  let base := (category_scores.lookup n.category).getD 5
  let adjusted := base
      + (if 3 < n.fiber then (1:ℚ)/2 else 0)
      + (if 10 < n.protein then (1:ℚ)/2 else 0)
      + (if 400 < n.calories then (-1:ℚ) else 0)
      + (if 15 < n.fat then (-1:ℚ)/2 else 0)
  max 1 (min 10 (pyRound1 adjusted))

end AIAnalyzer

namespace VertexScanner

/-!  `app/services/vertex_ai_image_scanner_new.py`, class
`VertexAIImageScanner`.  The generative model and `json.loads` are
collaborators: the model's reply is a `VResponse` input, JSON parsing is
a function parameter `parse : String → Option α` (returning `none` where
`json.loads` raises `JSONDecodeError`) together with `perr`, the
`str(je)` message of that exception. -/

/-- Outcome of `vertex_service.generate_content_with_image` as observed
by the caller: a reply with a `content` key, a falsy/contentless reply,
or a raised exception. -/
inductive VResponse where
  | ok (content : String)
  | empty
  | exn (msg : String)

/-- The open-brace character, written by code point. -/
def braceOpen : Char := Char.ofNat 123

/-- The close-brace character, written by code point. -/
def braceClose : Char := Char.ofNat 125

/-- Python `s.count(c)` for a single character. -/
def countChar (s : String) (c : Char) : Nat := s.toList.count c

/-- The content clean-up both analyzers perform before `json.loads`:
strip whitespace, then, only when the text starts with a literal
"```json", delete every "```json" and every "```" occurrence and strip
again. -/
def cleanContent (raw : String) : String :=
  let content := pyTrim raw
  if pyStartsWith content "```json" then
    pyTrim (pyReplace (pyReplace content "```json" "") "```" "")
  else content

/-- The fixed dict returned by `_fallback_response`. -/
structure FallbackResp where
  product_name : String
  brand : Option String
  category : String
  confidence : ℚ
  scan_method : String
  success : Bool
  error : String
  deriving DecidableEq

/-- `VertexAIImageScanner._fallback_response`. -/
def fallback_response (error_message : String) : FallbackResp :=
  { product_name := "unknown_product"
  , brand := none
  , category := "unknown"
  , confidence := 1/10
  , scan_method := "fallback"
  , success := false
  , error := error_message }

/-- Result of `analyze_product_image`: either the parsed JSON payload
(with `scan_method`/`model_used`/`success = True` added) or the
`_fallback_response` dict. -/
inductive ScanOutcome (α : Type) where
  | parsed (data : α)
  | fallback (r : FallbackResp)
  deriving DecidableEq

/-- `VertexAIImageScanner.analyze_product_image`: clean the reply text,
try `json.loads`; on success return the payload (tagged successful), on
parse failure or on a missing/failed reply return `_fallback_response`
(for a parse failure the raw text appears only in a log line, not in the
returned dict). -/
def analyze_product_image {α : Type} (parse : String → Option α)
    (perr : String → String) : VResponse → ScanOutcome α
  | .ok raw =>
      let content := cleanContent raw
      match parse content with
      | some result => .parsed result
      | none => .fallback (fallback_response ("JSON parsing failed: " ++ perr content))
  | .empty => .fallback (fallback_response "No response from Vertex AI")
  | .exn msg => .fallback (fallback_response ("Analysis error: " ++ msg))

/-- The fixed dict returned by `_fallback_response_detailed`. -/
structure DetailedFallback where
  total_products : Nat
  analysis_confidence : ℚ
  scan_method : String
  success : Bool
  error : String
  total_estimated_weight : ℚ
  total_calories : ℚ
  deriving DecidableEq

/-- `VertexAIImageScanner._fallback_response_detailed` (its `products`
key is always the empty list). -/
def fallback_response_detailed (error_message : String) : DetailedFallback :=
  { total_products := 0
  , analysis_confidence := 1/10
  , scan_method := "fallback_detailed"
  , success := false
  , error := error_message
  , total_estimated_weight := 0
  , total_calories := 0 }

/-- The truncated-JSON repair attempt of `analyze_products_with_weights`:
when the text has more opening than closing braces, append the missing
closing braces; otherwise leave it unchanged. -/
def fixBraces (content : String) : String :=
  if countChar content braceClose < countChar content braceOpen then
    content ++ String.mk (List.replicate
      (countChar content braceOpen - countChar content braceClose) braceClose)
  else content

/-- Result of `analyze_products_with_weights`: parsed payload (with a
`json_fixed` marker when the repaired text parsed), the inline
parse-failure dict (which retains the raw text: its length and its first
1000 characters), or `_fallback_response_detailed`. -/
inductive DetailedOutcome (α : Type) where
  | parsed (data : α) (json_fixed : Bool)
  | parseFailed (error : String) (raw_response_length : Nat)
      (raw_response_preview : String)
  | fallback (r : DetailedFallback)
  deriving DecidableEq

/-- `VertexAIImageScanner.analyze_products_with_weights`: clean the
reply text and try `json.loads`; on failure, if the text has unbalanced
opening braces retry on the repaired text; if parsing still fails return
the failure dict carrying `raw_response_length` and a 1000-character
`raw_response_preview` of the cleaned text. -/
def analyze_products_with_weights {α : Type} (parse : String → Option α)
    (perr : String → String) : VResponse → DetailedOutcome α
  | .ok raw =>
      let content := cleanContent raw
      match parse content with
      | some result => .parsed result false
      | none =>
          let failDict : DetailedOutcome α :=
            .parseFailed ("JSON parsing failed: " ++ perr content)
              (pyLen content) (pyTake content 1000)
          if countChar content braceClose < countChar content braceOpen then
            match parse (fixBraces content) with
            | some result => .parsed result true
            | none => failDict
          else failDict
  | .empty => .fallback (fallback_response_detailed "No response from Vertex AI")
  | .exn msg => .fallback (fallback_response_detailed ("analysis error " ++ msg))

end VertexScanner

namespace OFFService

/-!  `app/services/openfoodfacts_service.py` and
`app/services/barcode_service.py`: the nutrition-field extraction and
the barcode paths.  A JSON value carried by the remote `nutriments` dict
is modelled by whether Python `float(value)` accepts it: `num q` for any
value it converts to the number `q`, `raw` for any value it rejects. -/

/-- A value of the remote `nutriments` dict, quotiented by
`float`-convertibility. -/
inductive OFFVal where
  | num (q : ℚ)
  | raw
  deriving DecidableEq

/-- A value of the dict built by the extraction functions: a number or
the constant `"per_100g"`-style string marker. -/
inductive NutVal where
  | num (q : ℚ)
  | str (s : String)
  deriving DecidableEq

/-- The `nutrition_mapping` table of
`OpenFoodFactsAPI._extract_nutrition`. -/
def nutrition_mapping : List (String × String) :=
  [ ("energy-kcal_100g", "calories")
  , ("proteins_100g", "protein")
  , ("carbohydrates_100g", "carbohydrates")
  , ("fat_100g", "fat")
  , ("fiber_100g", "fiber")
  , ("sugars_100g", "sugar")
  , ("sodium_100g", "sodium")
  , ("salt_100g", "salt")
  , ("saturated-fat_100g", "saturated_fat")
  , ("vitamin-c_100g", "vitamin_c")
  , ("calcium_100g", "calcium")
  , ("iron_100g", "iron") ]

/-- `OpenFoodFactsAPI._extract_nutrition`: for each mapping pair copy
`float(nutriments[api_key])` when the key is present and the conversion
succeeds (a failing conversion is swallowed by `except: pass`), then
unconditionally set `nutrition["unit"] = "per_100g"`. -/
def extract_nutrition (nutriments : List (String × OFFVal)) :
    List (String × NutVal) :=
  (nutrition_mapping.foldl (fun acc p =>
      match nutriments.lookup p.1 with
      | some (.num q) => acc ++ [(p.2, NutVal.num q)]
      | some .raw => acc
      | none => acc) [])
    ++ [("unit", NutVal.str "per_100g")]

/-- The `nutrition_mapping` table of
`barcode_service.extract_nutrition_info`. -/
def nutrition_mapping_basic : List (String × String) :=
  [ ("energy_100g", "calories")
  , ("proteins_100g", "protein")
  , ("carbohydrates_100g", "carbohydrates")
  , ("fat_100g", "fat")
  , ("fiber_100g", "fiber")
  , ("sugars_100g", "sugar")
  , ("sodium_100g", "sodium") ]

/-- `barcode_service.extract_nutrition_info`: for each mapping pair copy
the value verbatim when `api_key in nutriments`; no other key is ever
added. -/
def extract_nutrition_info (nutriments : List (String × OFFVal)) :
    List (String × OFFVal) :=
  nutrition_mapping_basic.foldl (fun acc p =>
    match nutriments.lookup p.1 with
    | some v => acc ++ [(p.2, v)]
    | none => acc) []

/-- What the scanner routes observe of a remote product lookup
(`get_product_info` / `get_product_by_barcode`): whether the catalog
reported the barcode as known. -/
structure RemoteProduct where
  found : Bool
  name : String
  deriving DecidableEq

/-- Outcome dict of `barcode_service.analyze_barcode_image`, one
constructor per returned shape. -/
inductive BarcodeAnalysis where
  | unavailable
  | found (barcode : String) (barcode_type : String) (product : RemoteProduct)
  | noBarcode
  deriving DecidableEq

/-- `barcode_service.analyze_barcode_image`: when the `pyzbar` library
is importable (`BARCODE_AVAILABLE`) and `decode(image)` yields a symbol,
the decoded string is passed, with no validation at all, to
`get_product_info`, which queries OpenFoodFacts.  The symbol decoder is
the input `decoded`; the remote catalog is the parameter `remote`; the
second component lists every barcode string dispatched to the remote
service. -/
def analyze_barcode_image (barcodeAvailable : Bool)
    (decoded : Option (String × String)) (remote : String → RemoteProduct) :
    BarcodeAnalysis × List String :=
  if !barcodeAvailable then (.unavailable, [])
  else
    match decoded with
    | some (barcode_data, barcode_type) =>
        (.found barcode_data barcode_type (remote barcode_data), [barcode_data])
    | none => (.noBarcode, [])

end OFFService

namespace ScannerRoute

/-!  `app/routes/scanner.py`: the `/scanner/barcode-lookup` handler
`lookup_barcode` and the `/scanner/analyze` handler `analyze_image`. -/

open OFFService

/-- Response of `lookup_barcode`, one constructor per returned shape:
an `HTTPException(400, detail)`, or the success / not-found JSON
bodies. -/
inductive LookupResult where
  | http400 (detail : String)
  | productFound (barcode : String) (name : String)
  | productMissing (barcode : String)
  deriving DecidableEq

/-- `lookup_barcode`: reject with HTTP 400 when the barcode is falsy or
fails `str.isdigit`, then when its length is outside 8..13; only then
call `OpenFoodFactsAPI.get_product_by_barcode` (the parameter `remote`;
the second component lists the barcodes dispatched to it). -/
def lookup_barcode (remote : String → RemoteProduct) (barcode : String) :
    LookupResult × List String :=
  if barcode.isEmpty || !pyStrIsdigit barcode then
    (.http400 "Barcode must contain only digits", [])
  else if barcode.length < 8 ∨ 13 < barcode.length then
    (.http400 "Barcode must be between 8 and 13 digits long", [])
  else
    let product_info := remote barcode
    if product_info.found then
      (.productFound barcode product_info.name, [barcode])
    else
      (.productMissing barcode, [barcode])

/-- Opaque payload dicts appended to the `results` list of
`analyze_image`, tagged with the collaborator that produced them (the
`Nat` stands for the rest of the dict, irrelevant to selection). -/
inductive MData where
  | vertexBarcode (d : Nat)
  | tradBarcode (d : Nat)
  | vertexProduct (d : Nat)
  | clipDict (d : Nat)
  | clipStr (s : String)
  deriving DecidableEq

/-- One entry of the `results` list: its `method` tag, `success` flag
and, for successful entries, the `data` payload.  (The human-readable
`message` strings are elided: no claim mentions them.) -/
structure MEntry where
  method : String
  success : Bool
  data : Option MData
  deriving DecidableEq

/-- Outcome of the barcode stage of `analyze_image`:
`detect_barcode_with_vertex` reported a barcode, else the traditional
`analyze_barcode_image` found one, else neither. -/
inductive BarcodeStep where
  | vertexDetected (d : Nat)
  | tradFound (d : Nat)
  | nonefound
  deriving DecidableEq

/-- Outcome of the AI stage of `analyze_image`:
`identify_product_with_vertex` succeeded (with its reported confidence),
or it failed and `identify_product` (CLIP) returned a dict, or CLIP
returned a bare value, or the stage raised. -/
inductive AIStep where
  | vertexOk (confidence : ℚ) (d : Nat)
  | clipDict (confidence : ℚ) (is_fallback : Bool) (d : Nat)
  | clipStr (s : String)
  | aiError (msg : String)
  deriving DecidableEq

/-- The first `results` entry of `analyze_image` (barcode stage). -/
def barcodeEntry : BarcodeStep → MEntry
  | .vertexDetected d => ⟨"vertex_ai_barcode", true, some (.vertexBarcode d)⟩
  | .tradFound d => ⟨"traditional_barcode", true, some (.tradBarcode d)⟩
  | .nonefound => ⟨"barcode_analysis", false, none⟩

/-- The second `results` entry of `analyze_image` (AI stage): a Vertex
result is successful only when its confidence exceeds 0.3; a CLIP dict
only when it is not itself a fallback and its confidence exceeds 0.3; a
bare CLIP value is always recorded successful; an exception is recorded
as a failed `ai_recognition` entry. -/
def aiEntry : AIStep → MEntry
  | .vertexOk confidence d =>
      if 3/10 < confidence then ⟨"vertex_ai_product", true, some (.vertexProduct d)⟩
      else ⟨"vertex_ai_product", false, none⟩
  | .clipDict confidence is_fallback d =>
      if !is_fallback && 3/10 < confidence then
        ⟨"clip_ai_fallback", true, some (.clipDict d)⟩
      else ⟨"ai_recognition", false, none⟩
  | .clipStr s => ⟨"clip_ai_fallback", true, some (.clipStr s)⟩
  | .aiError _ => ⟨"ai_recognition", false, none⟩

/-- `analyze_image`: build the two-entry `results` list, then select
`main_result`: the barcode entry's data if it succeeded, else the AI
entry's data if it succeeded, else `None` (the run then reports
failure).  Returns `(main_result, results)`. -/
def analyze_image (b : BarcodeStep) (a : AIStep) :
    Option MData × List MEntry :=
  let results := [barcodeEntry b, aiEntry a]
  let main_result :=
    if (barcodeEntry b).success then (barcodeEntry b).data
    else if (aiEntry a).success then (aiEntry a).data
    else none
  (main_result, results)

end ScannerRoute

namespace FoodAnalysis

/-!  `app/routes/food_analysis.py`: the `toggle_favorite` handler over
the `scan_results` table (`app/models/food.py`, class `ScanResult`). -/

/-- The columns of a `scan_results` row that `toggle_favorite` never
touches (besides `id` and `user_id`). -/
structure ScanPayload where
  food_item_id : Option Nat
  image_path : String
  confidence_score : ℚ
  detected_food_name : String
  estimated_weight_grams : ℚ
  ai_description : Option String
  ai_nutrition_advice : Option String
  ai_health_score : ℚ
  calories : ℚ
  protein : ℚ
  carbs : ℚ
  fat : ℚ
  fiber : ℚ
  scan_timestamp : Nat
  deriving DecidableEq

/-- A `scan_results` row. -/
structure ScanRecord where
  id : Nat
  user_id : Nat
  is_favorite : Bool
  payload : ScanPayload
  deriving DecidableEq

/-- The filter of `toggle_favorite`'s query:
`ScanResult.id == scan_id, ScanResult.user_id == current_user.id`. -/
def scanPred (scan_id user_id : Nat) (s : ScanRecord) : Bool :=
  s.id == scan_id && s.user_id == user_id

/-- `db.query(...).first()`: the first matching row of the table. -/
def findScan (db : List ScanRecord) (scan_id user_id : Nat) :
    Option ScanRecord :=
  db.find? (scanPred scan_id user_id)

/-- `scan.is_favorite = not scan.is_favorite`: flip only the favorite
flag of a row. -/
def flipFav (s : ScanRecord) : ScanRecord :=
  { s with is_favorite := !s.is_favorite }

/-- Apply `f` to the first list element satisfying `p`, keeping
everything else; models an ORM update of the row `.first()` returned. -/
def updateFirst {α : Type} (p : α → Bool) (f : α → α) : List α → List α
  | [] => []
  | x :: xs => if p x then f x :: xs else x :: updateFirst p f xs

/-- `toggle_favorite`: 404 when no scan with this id is owned by the
requesting user; otherwise negate that row's `is_favorite`, commit, and
report a message derived from the new flag value. -/
def toggle_favorite (scan_id user_id : Nat) (db : List ScanRecord) :
    Except String (List ScanRecord × String) :=
  match findScan db scan_id user_id with
  | none => .error "Scan result not found"
  | some scan =>
      let newFav := !scan.is_favorite
      let db' := updateFirst (scanPred scan_id user_id) flipFav db
      .ok (db',
        "Scan " ++ (if newFav then "added to" else "removed from") ++ " favorites")

end FoodAnalysis

/-! ## Theorems -/

open AIAnalyzer VertexScanner OFFService ScannerRoute FoodAnalysis

/-- `pyRoundHalfEven` is the identity on integers. -/
lemma pyRoundHalfEven_intCast (n : ℤ) : pyRoundHalfEven (n : ℚ) = n := by
  simp only [pyRoundHalfEven, ratFloor, Int.floor_intCast, sub_self]
  norm_num

/-- Evaluation of `pyRound1` when ten times the argument is the integer
`n`: the result is `n / 10`. -/
lemma pyRound1_eq_of (q : ℚ) (n : ℤ) (h : 10 * q = (n : ℚ)) :
    pyRound1 q = (n : ℚ) / 10 := by
  unfold pyRound1
  rw [h, pyRoundHalfEven_intCast]

/-- Evaluation of `scaleRow` when every scaled total is an exact
multiple of one tenth. -/
lemma scaleRow_int (row : FoodRow) (w : ℚ) (c p b f fb : ℤ)
    (hc : 10 * (row.calories_per_100g * (w / 100)) = (c : ℚ))
    (hp : 10 * (row.protein_per_100g * (w / 100)) = (p : ℚ))
    (hb : 10 * (row.carbs_per_100g * (w / 100)) = (b : ℚ))
    (hf : 10 * (row.fat_per_100g * (w / 100)) = (f : ℚ))
    (hfb : 10 * (row.fiber_per_100g * (w / 100)) = (fb : ℚ)) :
    scaleRow row w =
      ⟨(c : ℚ)/10, (p : ℚ)/10, (b : ℚ)/10, (f : ℚ)/10, (fb : ℚ)/10,
        row.category⟩ := by
  simp only [scaleRow]
  rw [pyRound1_eq_of _ _ hc, pyRound1_eq_of _ _ hp, pyRound1_eq_of _ _ hb,
    pyRound1_eq_of _ _ hf, pyRound1_eq_of _ _ hfb]

/-- The table lookup on "apple" finds the apple row first. -/
lemma find_apple :
    food_database.find? (matchPred (pyLower "apple")) =
      some ("apple", ⟨52,  3/10, 14, 2/10,  24/10, "fruit"⟩) := rfl

/-- The table lookup on "totally_unknown_xyz" finds nothing. -/
lemma find_unknown_xyz :
    food_database.find? (matchPred (pyLower "totally_unknown_xyz")) = none := rfl

/-- C3: `NutritionResolver.resolve("apple", 200)` (embodied by
`get_nutrition_data`) returns exactly calories 104.0, protein 0.6,
carbs 28.0, fat 0.4, fiber 4.8 (category "fruit"); and in general every
total equals the matched per-100g table value times
`weight_grams / 100`, rounded to one decimal place. -/
theorem C3_resolve_apple_scaling :
    get_nutrition_data "apple" 200 = ⟨104, 3/5, 28, 2/5, 24/5, "fruit"⟩ ∧
    ∀ (name : String) (w : ℚ),
      get_nutrition_data name w = scaleRow (per100Of name) w := by
  constructor
  · show scaleRow (per100Of "apple") 200 = _
    rw [show per100Of "apple" = ⟨52, 3/10, 14, 2/10, 24/10, "fruit"⟩ by
      unfold per100Of; rw [find_apple]]
    rw [scaleRow_int _ _ 1040 6 280 4 48 (by norm_num) (by norm_num)
      (by norm_num) (by norm_num) (by norm_num)]
    norm_num
  · intro name w
    unfold get_nutrition_data per100Of
    rfl

/-- C4: a product name matching no table entry by case-insensitive
substring containment in either direction resolves to the generic
fallback row (calories 200, protein 5, carbs 30, fat 8, fiber 3,
category "unknown"), and `resolve("totally_unknown_xyz", 100)` returns
that row unchanged. -/
theorem C4_generic_fallback :
    (∀ (name : String) (w : ℚ),
        (∀ p ∈ food_database, matchPred (pyLower name) p = false) →
        get_nutrition_data name w = scaleRow fallbackRow w) ∧
    get_nutrition_data "totally_unknown_xyz" 100 = ⟨200, 5, 30, 8, 3, "unknown"⟩ := by
  constructor
  · intro name w h
    have hfind : food_database.find? (matchPred (pyLower name)) = none :=
      List.find?_eq_none.mpr (fun p hp => by simp [h p hp])
    show scaleRow (per100Of name) w = scaleRow fallbackRow w
    unfold per100Of
    rw [hfind]
  · show scaleRow (per100Of "totally_unknown_xyz") 100 = _
    rw [show per100Of "totally_unknown_xyz" = fallbackRow by
      unfold per100Of; rw [find_unknown_xyz]]
    rw [scaleRow_int _ _ 2000 50 300 80 30 (by norm_num [fallbackRow])
      (by norm_num [fallbackRow]) (by norm_num [fallbackRow])
      (by norm_num [fallbackRow]) (by norm_num [fallbackRow])]
    norm_num [fallbackRow]

/-- C4 witness: the generic-fallback branch applied at a concrete
unmatched name. -/
theorem C4_generic_fallback_witness :
    get_nutrition_data "totally_unknown_xyz" 100 = scaleRow fallbackRow 100 :=
  C4_generic_fallback.1 "totally_unknown_xyz" 100 (by decide)

/-- C5: `calculate_health_score` equals the category base score plus
+0.5 for fiber > 3, +0.5 for protein > 10, −1.0 for calories > 400,
−0.5 for fat > 15, rounded to one decimal and clamped into [1, 10]; a
"fruit" input with fiber 4, protein 2, calories 100, fat 1 scores 9.0;
and the result is always within [1, 10], in particular never below
1.0. -/
theorem C5_health_score :
    calculate_health_score ⟨100, 2, 0, 1, 4, "fruit"⟩ = 9 ∧
    (∀ n, 1 ≤ calculate_health_score n ∧ calculate_health_score n ≤ 10) ∧
    ∀ n, calculate_health_score n = advisoryScoreSpec n := by
  refine ⟨?_, fun n => ⟨le_max_left _ _, ?_⟩, fun n => ?_⟩
  · simp only [calculate_health_score]
    rw [show (category_scores.lookup "fruit").getD 5 = 17/2 from rfl]
    norm_num
    rw [pyRound1_eq_of 9 90 (by norm_num)]
    norm_num [min_def, max_def]
  · exact max_le (by norm_num) (min_le_left _ _)
  · simp only [calculate_health_score, advisoryScoreSpec]
    split_ifs <;>
      exact congrArg (fun z => max 1 (min 10 (pyRound1 z))) (by ring)

/-- C9 counterexample: `get_nutrition_data` performs no weight
validation: at weight −100 the call is not rejected and a normal
estimate is produced by linear scaling (negative totals). -/
theorem C9_counterexample :
    get_nutrition_data "apple" (-100) =
      ⟨-52, -(3/10), -14, -(1/5), -(12/5), "fruit"⟩ ∧
    (get_nutrition_data "apple" (-100)).calories < 0 := by
  have h : get_nutrition_data "apple" (-100) =
      ⟨((-520 : ℤ) : ℚ)/10, ((-3 : ℤ) : ℚ)/10, ((-140 : ℤ) : ℚ)/10,
        ((-2 : ℤ) : ℚ)/10, ((-24 : ℤ) : ℚ)/10, "fruit"⟩ := by
    show scaleRow (per100Of "apple") (-100) = _
    rw [show per100Of "apple" = ⟨52, 3/10, 14, 2/10, 24/10, "fruit"⟩ by
      unfold per100Of; rw [find_apple]]
    exact scaleRow_int _ _ (-520) (-3) (-140) (-2) (-24) (by norm_num)
      (by norm_num) (by norm_num) (by norm_num) (by norm_num)
  refine ⟨?_, ?_⟩
  · rw [h]; norm_num
  · rw [h]; norm_num

/-- C9 amended: `get_nutrition_data` applies linear scaling and
rounding for every weight, including every weight ≤ 0; no rejection
occurs (nor is one performed by any caller on this path). -/
theorem C9_amended (name : String) (w : ℚ) (h : w ≤ 0) :
    get_nutrition_data name w = scaleRow (per100Of name) w := by
  unfold get_nutrition_data per100Of
  rfl

/-- C9 witness: the amended statement applied at weight −100. -/
theorem C9_amended_witness :
    get_nutrition_data "apple" (-100) = scaleRow (per100Of "apple") (-100) :=
  C9_amended "apple" (-100) (by norm_num)

/-- C6 counterexample: on an input matching nothing
(`_analyze_with_fallback("xyz.jpg")`), the heuristic fallback's sentinel
name is `"unknown food"`, not `"unknown_product"`, and its confidence is
0.3, not 0.1. -/
theorem C6_counterexample :
    (analyze_with_fallback "xyz.jpg" none).food_name = "unknown food" ∧
    (analyze_with_fallback "xyz.jpg" none).food_name ≠ "unknown_product" ∧
    (analyze_with_fallback "xyz.jpg" none).confidence_score = 3/10 ∧
    (analyze_with_fallback "xyz.jpg" none).confidence_score ≠ 1/10 := by
  refine ⟨rfl, by decide, rfl, ?_⟩
  rw [show (analyze_with_fallback "xyz.jpg" none).confidence_score = 3/10 from rfl]
  norm_num

/-- C6 amended: the heuristic fallback always produces a result with a
non-empty name and a populated confidence — `_analyze_with_fallback`
with sentinel `"unknown food"` and confidence 0.3 when nothing matches
(0.7 on a match); the sentinel `"unknown_product"` with confidence 0.1
belongs to the vertex scanner's `_fallback_response`. -/
theorem C6_amended :
    (∀ (path : String) (err : Option String),
        (analyze_with_fallback path err).food_name ≠ "" ∧
        ((analyze_with_fallback path err).confidence_score = 7/10 ∨
         (analyze_with_fallback path err).confidence_score = 3/10)) ∧
    (∀ msg : String,
        (fallback_response msg).product_name = "unknown_product" ∧
        (fallback_response msg).confidence = 1/10 ∧
        (fallback_response msg).product_name ≠ "") := by
  constructor
  · intro path err
    simp only [analyze_with_fallback]
    cases hf : food_database.find? (fun p =>
        pyIn p.1 (pyLower (pathStem path)) || pyIn (pyLower (pathStem path)) p.1) with
    | none => exact ⟨by decide, Or.inr rfl⟩
    | some p =>
        have hmem := List.mem_of_find?_eq_some hf
        simp only [food_database, List.mem_cons, List.not_mem_nil, or_false]
          at hmem
        rcases hmem with rfl | rfl | rfl | rfl | rfl <;>
          exact ⟨by decide, Or.inl rfl⟩
  · refine fun msg => ⟨rfl, rfl, ?_⟩
    rw [show (fallback_response msg).product_name = "unknown_product" from rfl]
    decide

/-- The accumulator-append fold of `_extract_nutrition` is a
`filterMap`. -/
lemma extract_fold (nms : List (String × OFFVal)) :
    ∀ (l : List (String × String)) (acc : List (String × NutVal)),
      l.foldl (fun acc p =>
          match nms.lookup p.1 with
          | some (.num q) => acc ++ [(p.2, NutVal.num q)]
          | some .raw => acc
          | none => acc) acc
      = acc ++ l.filterMap (fun p =>
          match nms.lookup p.1 with
          | some (.num q) => some (p.2, NutVal.num q)
          | some .raw => none
          | none => none) := by
  intro l
  induction l with
  | nil => intro acc; simp
  | cons x xs ih =>
      intro acc
      rcases hx : nms.lookup x.1 with _ | v
      · simp only [List.foldl_cons, List.filterMap_cons, hx, ih]
      · rcases v with q | _ <;>
          simp [List.foldl_cons, List.filterMap_cons, hx, ih]

/-- The accumulator-append fold of `extract_nutrition_info` is a
`filterMap`. -/
lemma extract_info_fold (nms : List (String × OFFVal)) :
    ∀ (l : List (String × String)) (acc : List (String × OFFVal)),
      l.foldl (fun acc p =>
          match nms.lookup p.1 with
          | some v => acc ++ [(p.2, v)]
          | none => acc) acc
      = acc ++ l.filterMap (fun p =>
          match nms.lookup p.1 with
          | some v => some (p.2, v)
          | none => none) := by
  intro l
  induction l with
  | nil => intro acc; simp
  | cons x xs ih =>
      intro acc
      rcases hx : nms.lookup x.1 with _ | v <;>
        simp [List.foldl_cons, List.filterMap_cons, hx, ih]

/-- C7 counterexample: `_extract_nutrition` of a remote response with no
nutrition fields (or only a non-numeric one) still emits the constant
`unit = "per_100g"` entry, so the output is not exactly the fields
present in the remote response. -/
theorem C7_counterexample :
    extract_nutrition [] = [("unit", NutVal.str "per_100g")] ∧
    extract_nutrition [] ≠ [] ∧
    extract_nutrition [("proteins_100g", OFFVal.raw)] =
      [("unit", NutVal.str "per_100g")] := by
  refine ⟨rfl, by decide, rfl⟩

/-- C7 amended: a mapped nutrition field appears in
`_extract_nutrition`'s output exactly when the remote response carries a
float-convertible value under the corresponding source key (the value is
copied, never fabricated), and a constant `unit = "per_100g"` marker is
always appended; the companion `extract_nutrition_info` of
`barcode_service` emits exactly the mapped fields present in the remote
response, values copied verbatim, with no extra key. -/
theorem C7_amended :
    (∀ (nms : List (String × OFFVal)) (k : String) (v : NutVal),
        (k, v) ∈ extract_nutrition nms ↔
          ((k = "unit" ∧ v = NutVal.str "per_100g") ∨
           ∃ a q, (a, k) ∈ nutrition_mapping ∧
             nms.lookup a = some (OFFVal.num q) ∧ v = NutVal.num q)) ∧
    (∀ (nms : List (String × OFFVal)) (k : String) (v : OFFVal),
        (k, v) ∈ extract_nutrition_info nms ↔
          ∃ a, (a, k) ∈ nutrition_mapping_basic ∧ nms.lookup a = some v) := by
  constructor
  · intro nms k v
    unfold extract_nutrition
    rw [extract_fold, List.nil_append, List.mem_append]
    constructor
    · rintro (hm | hm)
      · rcases List.mem_filterMap.mp hm with ⟨⟨a, o⟩, hp, he⟩
        dsimp only at he
        rcases hl : nms.lookup a with _ | w
        · rw [hl] at he; exact absurd he (by simp)
        · rcases w with q | _
          · rw [hl] at he
            simp only [Option.some_inj, Prod.mk.injEq] at he
            exact Or.inr ⟨a, q, by rw [← he.1]; exact hp, hl, he.2.symm⟩
          · rw [hl] at he; exact absurd he (by simp)
      · simp only [List.mem_singleton, Prod.mk.injEq] at hm
        exact Or.inl hm
    · rintro (⟨hk, hv⟩ | ⟨a, q, ha, hl, hv⟩)
      · subst hk; subst hv; exact Or.inr (by simp)
      · refine Or.inl (List.mem_filterMap.mpr ⟨(a, k), ha, ?_⟩)
        dsimp only
        rw [hl, hv]
  · intro nms k v
    unfold extract_nutrition_info
    rw [extract_info_fold, List.nil_append]
    constructor
    · intro hm
      rcases List.mem_filterMap.mp hm with ⟨⟨a, o⟩, hp, he⟩
      dsimp only at he
      rcases hl : nms.lookup a with _ | w
      · rw [hl] at he; exact absurd he (by simp)
      · rw [hl] at he
        simp only [Option.some_inj, Prod.mk.injEq] at he
        exact ⟨a, by rw [← he.1]; exact hp, by rw [hl, he.2]⟩
    · rintro ⟨a, ha, hl⟩
      refine List.mem_filterMap.mpr ⟨(a, k), ha, ?_⟩
      dsimp only
      rw [hl]

/-- C2 amended: the `/scanner/barcode-lookup` route rejects, with HTTP
400 and no remote dispatch, every barcode of length outside 8..13 or
containing a non-digit; but the image-scan path
(`barcode_service.analyze_barcode_image`) dispatches whatever string the
symbol decoder produced to the remote catalog without any validation. -/
theorem C2_amended :
    (∀ (remote : String → RemoteProduct) (b : String),
        b.length < 8 ∨ 13 < b.length ∨ (∃ c ∈ b.toList, ¬ c.isDigit) →
        (∃ d, (lookup_barcode remote b).1 = LookupResult.http400 d) ∧
        (lookup_barcode remote b).2 = []) ∧
    (∀ (remote : String → RemoteProduct) (data btype : String),
        (analyze_barcode_image true (some (data, btype)) remote).2 = [data]) := by
  constructor
  · intro remote b h
    unfold lookup_barcode
    by_cases h1 : (b.isEmpty || !pyStrIsdigit b) = true
    · rw [if_pos h1]; exact ⟨⟨_, rfl⟩, rfl⟩
    · have hd : ∀ c ∈ b.toList, c.isDigit := by
        cases hall : b.toList.all Char.isDigit with
        | true => exact fun c hc => by simpa using List.all_eq_true.mp hall c hc
        | false =>
            exfalso; apply h1
            cases hemp : b.isEmpty with
            | true => simp [hemp]
            | false =>
                simp only [pyStrIsdigit, hemp, hall, Bool.or_eq_true,
                  Bool.not_eq_true', Bool.and_eq_false_iff]
                simpa using List.all_eq_false.mp hall
      have hlen : b.length < 8 ∨ 13 < b.length := by
        rcases h with h | h | ⟨c, hc, hnd⟩
        · exact Or.inl h
        · exact Or.inr h
        · exact absurd (hd c hc) hnd
      rw [if_neg h1, if_pos hlen]
      exact ⟨⟨_, rfl⟩, rfl⟩
  · intro remote data btype; rfl

/-- C2 witness: the rejection branch applied to the concrete invalid
barcode "12AB" (too short and non-numeric). -/
theorem C2_amended_witness :
    (∃ d, (lookup_barcode (fun _ => ⟨false, "x"⟩) "12AB").1 =
      LookupResult.http400 d) ∧
    (lookup_barcode (fun _ => ⟨false, "x"⟩) "12AB").2 = [] :=
  C2_amended.1 (fun _ => ⟨false, "x"⟩) "12AB" (Or.inl (by decide))

/-- C2 counterexample: the image path dispatches the decoded barcode
"ABC" — shorter than 8 characters and entirely non-digit — straight to
the remote catalog service. -/
theorem C2_counterexample :
    (analyze_barcode_image true (some ("ABC", "CODE39"))
        (fun _ => ⟨false, "y"⟩)).2 = ["ABC"] ∧
    "ABC".length < 8 ∧ ("ABC".toList.all Char.isDigit) = false := by
  exact ⟨rfl, by decide, by decide⟩

/-- C8 counterexample: two distinct unparsable replies ("AAA" and
"BBB") make `analyze_product_image` return the very same failure dict
(the `_fallback_response`, which holds only the exception message), so
the returned failure result does not preserve the raw response text. -/
theorem C8_counterexample :
    analyze_product_image (fun _ => (none : Option Unit))
        (fun _ => "Expecting value: line 1 column 1 (char 0)") (.ok "AAA") =
      analyze_product_image (fun _ => (none : Option Unit))
        (fun _ => "Expecting value: line 1 column 1 (char 0)") (.ok "BBB") ∧
    "AAA" ≠ "BBB" ∧
    analyze_product_image (fun _ => (none : Option Unit))
        (fun _ => "Expecting value: line 1 column 1 (char 0)") (.ok "AAA") =
      .fallback (fallback_response
        "JSON parsing failed: Expecting value: line 1 column 1 (char 0)") := by
  exact ⟨rfl, by decide, rfl⟩

/-- C8 amended: code fences are stripped exactly when the stripped reply
starts with a literal "```json"; every JSON parse failure yields a
recoverable failure result (`success = False`, not an exception)
carrying the parse-error message; the multi-product variant's failure
dict preserves the raw text (its length and a 1000-character preview),
while the single-product variant returns `_fallback_response`, which
retains the raw text only in a log line. -/
theorem C8_amended {α β : Type} (parse : String → Option α)
    (pd : String → Option β) (perr : String → String) (raw : String)
    (h1 : parse (cleanContent raw) = none)
    (h2 : pd (cleanContent raw) = none)
    (h3 : pd (fixBraces (cleanContent raw)) = none) :
    analyze_product_image parse perr (.ok raw) =
      .fallback (fallback_response
        ("JSON parsing failed: " ++ perr (cleanContent raw))) ∧
    (fallback_response
      ("JSON parsing failed: " ++ perr (cleanContent raw))).success = false ∧
    analyze_products_with_weights pd perr (.ok raw) =
      .parseFailed ("JSON parsing failed: " ++ perr (cleanContent raw))
        (pyLen (cleanContent raw)) (pyTake (cleanContent raw) 1000) ∧
    (pyStartsWith (pyTrim raw) "```json" = false →
      cleanContent raw = pyTrim raw) ∧
    (pyStartsWith (pyTrim raw) "```json" = true →
      cleanContent raw =
        pyTrim (pyReplace (pyReplace (pyTrim raw) "```json" "") "```" "")) := by
  refine ⟨?_, rfl, ?_, ?_, ?_⟩
  · simp only [analyze_product_image]
    rw [h1]
  · simp only [analyze_products_with_weights, h2]
    split
    · rw [h3]
    · rfl
  · intro h
    simp only [cleanContent]
    rw [if_neg]
    simp [h]
  · intro h
    simp only [cleanContent]
    rw [if_pos h]

/-- C8 witness: the amended statement applied to the concrete
unparsable reply "oops" with a stub parser and error message. -/
theorem C8_amended_witness :
    analyze_product_image (fun _ => (none : Option Unit)) (fun _ => "m")
        (.ok "oops") =
      .fallback (fallback_response "JSON parsing failed: m") ∧
    (fallback_response "JSON parsing failed: m").success = false ∧
    analyze_products_with_weights (fun _ => (none : Option Unit))
        (fun _ => "m") (.ok "oops") =
      .parseFailed "JSON parsing failed: m" 4 "oops" ∧
    (pyStartsWith (pyTrim "oops") "```json" = false →
      cleanContent "oops" = pyTrim "oops") ∧
    (pyStartsWith (pyTrim "oops") "```json" = true →
      cleanContent "oops" =
        pyTrim (pyReplace (pyReplace (pyTrim "oops") "```json" "") "```" "")) :=
  C8_amended (fun _ => none) (fun _ => none) (fun _ => "m") "oops" rfl rfl rfl

/-- C1 amended: a Vertex vision result with confidence ≤ 0.3 is never
selected as `main_result` and is recorded in the attempt list as a miss;
but no further fallback method is attempted in that case — the attempt
list stays at the two entries and `main_result` falls back to the
barcode stage's data, or to none. -/
theorem C1_amended (b : BarcodeStep) (conf : ℚ) (d : Nat)
    (h : conf ≤ 3/10) :
    (∀ d', (analyze_image b (.vertexOk conf d)).1 ≠
      some (MData.vertexProduct d')) ∧
    (analyze_image b (.vertexOk conf d)).2 =
      [barcodeEntry b, ⟨"vertex_ai_product", false, none⟩] ∧
    (analyze_image b (.vertexOk conf d)).1 =
      (if (barcodeEntry b).success then (barcodeEntry b).data else none) := by
  have hc : ¬ (3/10 : ℚ) < conf := not_lt.mpr h
  have he : aiEntry (.vertexOk conf d) = ⟨"vertex_ai_product", false, none⟩ := by
    simp only [aiEntry]
    rw [if_neg hc]
  refine ⟨?_, ?_, ?_⟩
  · intro d'
    simp only [analyze_image, he]
    cases b <;> simp [barcodeEntry]
  · simp only [analyze_image, he]
  · simp only [analyze_image, he]
    cases b <;> simp [barcodeEntry]

/-- C1 witness: the amended statement applied at a concrete run with no
barcode and a Vertex success of confidence 0.2. -/
theorem C1_amended_witness :
    (∀ d', (analyze_image .nonefound (.vertexOk (1/5) 7)).1 ≠
      some (MData.vertexProduct d')) ∧
    (analyze_image .nonefound (.vertexOk (1/5) 7)).2 =
      [barcodeEntry .nonefound, ⟨"vertex_ai_product", false, none⟩] ∧
    (analyze_image .nonefound (.vertexOk (1/5) 7)).1 =
      (if (barcodeEntry .nonefound).success then (barcodeEntry .nonefound).data
       else none) :=
  C1_amended .nonefound (1/5) 7 (by norm_num)

/-- C1 counterexample: with no barcode found and a Vertex vision success
of confidence 0.2 (≤ 0.3), the run records both stages as misses and
ends with `main_result = None`: no fallback method is attempted after
the low-confidence vision result, contradicting the claimed fall-through
to a next/fallback method. -/
theorem C1_counterexample :
    (analyze_image .nonefound (.vertexOk (1/5) 7)).1 = none ∧
    (analyze_image .nonefound (.vertexOk (1/5) 7)).2 =
      [⟨"barcode_analysis", false, none⟩, ⟨"vertex_ai_product", false, none⟩] ∧
    ∀ e ∈ (analyze_image .nonefound (.vertexOk (1/5) 7)).2,
      e.success = false := by
  have hc : ¬ (3/10 : ℚ) < 1/5 := by norm_num
  have he : aiEntry (.vertexOk (1/5) 7) = ⟨"vertex_ai_product", false, none⟩ := by
    simp only [aiEntry]
    rw [if_neg hc]
  simp only [analyze_image, he, barcodeEntry]
  exact ⟨rfl, by trivial, by decide⟩

/-- `List.find?` locates its result: the list splits around the found
element, everything before it failing the predicate. -/
lemma find_decomp {α : Type} (p : α → Bool) :
    ∀ (l : List α) (x : α), l.find? p = some x →
      ∃ l₁ l₂, l = l₁ ++ x :: l₂ ∧ (∀ y ∈ l₁, p y = false) ∧ p x = true := by
  intro l
  induction l with
  | nil => intro x h; simp [List.find?] at h
  | cons a as ih =>
      intro x h
      cases hpa : p a with
      | true =>
          rw [List.find?_cons_of_pos _ hpa, Option.some_inj] at h
          subst h
          exact ⟨[], as, rfl, by simp, hpa⟩
      | false =>
          rw [List.find?_cons_of_neg _ (by simp [hpa])] at h
          rcases ih x h with ⟨l₁, l₂, hl, hfail, hx⟩
          refine ⟨a :: l₁, l₂, by rw [hl]; rfl, ?_, hx⟩
          intro y hy
          rcases List.mem_cons.mp hy with rfl | hy2
          · exact hpa
          · exact hfail y hy2

/-- `List.find?` on a split list whose prefix fails the predicate finds
the split point. -/
lemma find_in_append {α : Type} (p : α → Bool) (x : α) (l₂ : List α) :
    ∀ l₁ : List α, (∀ y ∈ l₁, p y = false) → p x = true →
      (l₁ ++ x :: l₂).find? p = some x := by
  intro l₁
  induction l₁ with
  | nil => intro _ hx; simp [List.find?_cons_of_pos _ hx]
  | cons a as ih =>
      intro h hx
      have ha : p a = false := h a (by simp)
      rw [List.cons_append, List.find?_cons_of_neg _ (by simp [ha])]
      exact ih (fun y hy => h y (by simp [hy])) hx

/-- `updateFirst` on a split list whose prefix fails the predicate
rewrites exactly the split point. -/
lemma updateFirst_append {α : Type} (p : α → Bool) (f : α → α) (x : α)
    (l₂ : List α) :
    ∀ l₁ : List α, (∀ y ∈ l₁, p y = false) → p x = true →
      updateFirst p f (l₁ ++ x :: l₂) = l₁ ++ f x :: l₂ := by
  intro l₁
  induction l₁ with
  | nil => intro _ hx; simp [updateFirst, hx]
  | cons a as ih =>
      intro h hx
      have ha : p a = false := h a (by simp)
      have ih2 := ih (fun y hy => h y (by simp [hy])) hx
      simp only [List.cons_append]
      simp [updateFirst, ha, ih2]

/-- C10: the favorite toggle is an involution on the stored scan
record: for every scan owned by the requesting user, one call flips
`is_favorite` and changes no other field and no other row, and a second
call restores the original table. -/
theorem C10_toggle_involution (db : List ScanRecord) (sid uid : Nat)
    (s : ScanRecord) (h : findScan db sid uid = some s) :
    ∃ l r msg₁ msg₂,
      db = l ++ s :: r ∧
      toggle_favorite sid uid db = .ok (l ++ flipFav s :: r, msg₁) ∧
      toggle_favorite sid uid (l ++ flipFav s :: r) = .ok (db, msg₂) ∧
      (flipFav s).is_favorite = !s.is_favorite ∧
      (flipFav s).id = s.id ∧ (flipFav s).user_id = s.user_id ∧
      (flipFav s).payload = s.payload := by
  obtain ⟨l, r, hdb, hfail, hs⟩ := find_decomp (scanPred sid uid) db s h
  have hflip : scanPred sid uid (flipFav s) = true := hs
  have hfind2 : findScan (l ++ flipFav s :: r) sid uid = some (flipFav s) :=
    find_in_append _ _ _ l hfail hflip
  have hflip2 : flipFav (flipFav s) = s := by
    cases s; simp [flipFav]
  refine ⟨l, r,
    "Scan " ++ (if !s.is_favorite then "added to" else "removed from")
      ++ " favorites",
    "Scan " ++ (if !(flipFav s).is_favorite then "added to"
      else "removed from") ++ " favorites",
    hdb, ?_, ?_, rfl, rfl, rfl, rfl⟩
  · simp only [toggle_favorite, h]
    rw [hdb, updateFirst_append _ _ _ _ l hfail hs]
  · simp only [toggle_favorite, hfind2]
    rw [updateFirst_append _ _ _ _ l hfail hflip, hflip2, ← hdb]

/-- C10 witness: the involution applied to a concrete one-row table. -/
theorem C10_toggle_involution_witness :
    findScan [⟨1, 7, false, ⟨none, "img", 1, "apple", 150, none, none, 9,
        104, 1, 28, 1, 5, 0⟩⟩] 1 7 =
      some ⟨1, 7, false, ⟨none, "img", 1, "apple", 150, none, none, 9,
        104, 1, 28, 1, 5, 0⟩⟩ ∧
    ∃ l r msg₁ msg₂,
      [(⟨1, 7, false, ⟨none, "img", 1, "apple", 150, none, none, 9,
          104, 1, 28, 1, 5, 0⟩⟩ : ScanRecord)] = l ++
        (⟨1, 7, false, ⟨none, "img", 1, "apple", 150, none, none, 9,
          104, 1, 28, 1, 5, 0⟩⟩ : ScanRecord) :: r ∧
      toggle_favorite 1 7 [⟨1, 7, false, ⟨none, "img", 1, "apple", 150,
          none, none, 9, 104, 1, 28, 1, 5, 0⟩⟩] =
        .ok (l ++ flipFav ⟨1, 7, false, ⟨none, "img", 1, "apple", 150,
          none, none, 9, 104, 1, 28, 1, 5, 0⟩⟩ :: r, msg₁) ∧
      toggle_favorite 1 7 (l ++ flipFav ⟨1, 7, false, ⟨none, "img", 1,
          "apple", 150, none, none, 9, 104, 1, 28, 1, 5, 0⟩⟩ :: r) =
        .ok ([⟨1, 7, false, ⟨none, "img", 1, "apple", 150, none, none, 9,
          104, 1, 28, 1, 5, 0⟩⟩], msg₂) ∧
      (flipFav ⟨1, 7, false, ⟨none, "img", 1, "apple", 150, none, none, 9,
        104, 1, 28, 1, 5, 0⟩⟩).is_favorite = !false ∧
      (flipFav ⟨1, 7, false, ⟨none, "img", 1, "apple", 150, none, none, 9,
        104, 1, 28, 1, 5, 0⟩⟩).id = 1 ∧
      (flipFav ⟨1, 7, false, ⟨none, "img", 1, "apple", 150, none, none, 9,
        104, 1, 28, 1, 5, 0⟩⟩).user_id = 7 ∧
      (flipFav ⟨1, 7, false, ⟨none, "img", 1, "apple", 150, none, none, 9,
        104, 1, 28, 1, 5, 0⟩⟩).payload = ⟨none, "img", 1, "apple", 150,
        none, none, 9, 104, 1, 28, 1, 5, 0⟩ :=
  ⟨rfl, C10_toggle_involution _ 1 7 _ rfl⟩

end NutriBackend
